import Mathlib

/-!
Verification of the sacn-monitor core (E1.31/sACN monitor).

The Go sources are shallowly embedded: byte buffers are `List Nat`,
machine integers are `Nat` with an explicit `% 2 ^ 64` where a `uint64`
is incremented, timestamps (`time.Time`) are `Option Int` (with `none`
for Go's zero time) or plain `Int` instants, and Go maps are association
lists with Go's lookup/assignment semantics.
-/

set_option maxHeartbeats 1000000
set_option maxRecDepth 100000

/-! ## Wire codec (`internal/sacn`) -/

/-- `E131HeaderSize` from `internal/sacn/types.go`. -/
def E131HeaderSize : Nat := 126

/-- `E131MaxChannels` from `internal/sacn/types.go`. -/
def E131MaxChannels : Nat := 512

/-- `E131RootVector` from `internal/sacn/types.go`. -/
def E131RootVector : Nat := 0x00000004

/-- `E131FramingVector` from `internal/sacn/types.go`. -/
def E131FramingVector : Nat := 0x00000002

/-- `E131DMPVector` from `internal/sacn/types.go`. -/
def E131DMPVector : Nat := 0x02

/-- `ACNPacketIdentifier` from `internal/sacn/types.go`. -/
def ACNPacketIdentifier : List Nat :=
  [0x41, 0x53, 0x43, 0x2d, 0x45, 0x31, 0x2e, 0x31, 0x37, 0x00, 0x00, 0x00]

/-- `ParseError` from `internal/sacn/types.go` (message and byte offset). -/
structure ParseError where
  Message : String
  Offset : Nat
  deriving DecidableEq, Repr

/-- `Packet` from `internal/sacn/types.go`.  The network-address and
receipt-time metadata fields carry no parsed content and are omitted;
the source name is kept as its raw bytes (Go strings are byte strings). -/
structure Packet where
  CID : List Nat
  SourceName : List Nat
  Priority : Nat
  Sequence : Nat
  Universe : Nat
  StartCode : Nat
  ChannelData : List Nat
  deriving DecidableEq, Repr

/-- Big-endian 16-bit read, `binary.BigEndian.Uint16(data[off:off+2])`. -/
def beUint16 (data : List Nat) (off : Nat) : Nat :=
  data.getD off 0 * 256 + data.getD (off + 1) 0

/-- Big-endian 32-bit read, `binary.BigEndian.Uint32(data[off:off+4])`. -/
def beUint32 (data : List Nat) (off : Nat) : Nat :=
  ((data.getD off 0 * 256 + data.getD (off + 1) 0) * 256 + data.getD (off + 2) 0) * 256
    + data.getD (off + 3) 0

/-- Go's `bytes.IndexByte`: index of the first occurrence of `b`, or `none`
where Go returns `-1`. -/
def indexByte : List Nat → Nat → Option Nat
  | [], _ => none
  | a :: rest, b => if a = b then some 0 else (indexByte rest b).map (· + 1)

/-- The source-name extraction step of `Parse` (`internal/sacn`, `parser` file):
`bytes.IndexByte(sourceNameBytes, 0)`, then the slice before the first NUL if
`nullIdx > 0`, the whole slice if `nullIdx < 0`, and the zero value `""` when
`nullIdx == 0`. -/
def parseSourceName (sourceNameBytes : List Nat) : List Nat :=
  match indexByte sourceNameBytes 0 with
  | some nullIdx => if nullIdx > 0 then sourceNameBytes.take nullIdx else []
  | none => sourceNameBytes

/-- `Parse` from `internal/sacn`: validates the fixed header in order and
extracts the fields at their fixed offsets. -/
def Parse (data : List Nat) : Except ParseError Packet :=
  if data.length < E131HeaderSize then
    .error ⟨"packet too short", 0⟩
  else if ¬(data.getD 0 0 = 0x00 ∧ data.getD 1 0 = 0x10) then
    .error ⟨"invalid preamble size", 0⟩
  else if ¬((data.drop 4).take 12 = ACNPacketIdentifier) then
    .error ⟨"invalid ACN packet identifier", 4⟩
  else if ¬(beUint32 data 18 = E131RootVector) then
    .error ⟨"invalid root vector", 18⟩
  else if ¬(beUint32 data 40 = E131FramingVector) then
    .error ⟨"invalid framing vector", 40⟩
  else if ¬(data.getD 117 0 = E131DMPVector) then
    .error ⟨"invalid DMP vector", 117⟩
  else
    .ok
      { CID := (data.drop 22).take 16
        SourceName := parseSourceName ((data.drop 44).take 64)
        Priority := data.getD 108 0
        Sequence := data.getD 111 0
        Universe := beUint16 data 113
        StartCode := data.getD 125 0
        ChannelData :=
          if data.length > E131HeaderSize then
            let channelCount := data.length - E131HeaderSize
            let channelCount :=
              if channelCount > E131MaxChannels then E131MaxChannels else channelCount
            (data.drop E131HeaderSize).take channelCount
          else [] }

/-- A syntactically valid 126-byte header used by concrete witnesses; the
name field and sequence byte are parameters, universe is 1, priority 100,
start code 0.  Mirrors the test helper `buildValidPacket`. -/
def sampleHeader (name64 : List Nat) (seq : Nat) : List Nat :=
  [0x00, 0x10, 0, 0] ++ ACNPacketIdentifier ++ [0, 0] ++ [0, 0, 0, 4] ++
    List.replicate 16 7 ++ [0, 0] ++ [0, 0, 0, 2] ++ name64 ++ [100] ++ [0, 0] ++
    [seq] ++ [0] ++ [0, 1] ++ [0, 0] ++ [2] ++ List.replicate 7 0 ++ [0]

/-- C7: length is checked first, before any content validation. -/
theorem Parse_tooShort (data : List Nat) (h : data.length < 126) :
    Parse data = .error ⟨"packet too short", 0⟩ := by
  unfold Parse
  rw [if_pos]
  exact h

/-- C7 witness: a 3-byte buffer (whose content would also fail every later
check) is rejected as too short. -/
theorem Parse_tooShort_witness :
    [5, 5, 5].length < 126 ∧ Parse [5, 5, 5] = .error ⟨"packet too short", 0⟩ :=
  ⟨by decide, Parse_tooShort [5, 5, 5] (by decide)⟩

/-- `parseSourceName` reads exactly up to (and excluding) the first NUL byte,
and takes the whole buffer when no NUL occurs. -/
lemma parseSourceName_eq_takeWhile (l : List Nat) :
    parseSourceName l = l.takeWhile (fun b => !(b == 0)) := by
  induction l with
  | nil => rfl
  | cons a rest ih =>
    by_cases ha : a = 0
    · subst ha
      simp [parseSourceName, indexByte, List.takeWhile]
    · have hstep : indexByte (a :: rest) 0 = (indexByte rest 0).map (· + 1) := by
        simp [indexByte, ha]
      have hrest : parseSourceName rest = rest.takeWhile (fun b => !(b == 0)) := ih
      cases hidx : indexByte rest 0 with
      | none =>
        have h1 : parseSourceName (a :: rest) = a :: rest := by
          simp [parseSourceName, hstep, hidx]
        have h2 : rest.takeWhile (fun b => !(b == 0)) = rest := by
          simpa [parseSourceName, hidx] using hrest.symm
        have hb : (a == 0) = false := by simpa using ha
        simp [h1, List.takeWhile, hb, h2]
      | some j =>
        have h1 : parseSourceName (a :: rest) = a :: rest.take j := by
          simp [parseSourceName, hstep, hidx]
        have h2 : rest.takeWhile (fun b => !(b == 0)) = rest.take j := by
          rcases Nat.eq_zero_or_pos j with hj | hj
          · subst hj
            simpa [parseSourceName, hidx] using hrest.symm
          · simpa [parseSourceName, hidx, hj] using hrest.symm
        have hb : (a == 0) = false := by simpa using ha
        simp [h1, List.takeWhile, hb, h2]

/-- Every accepted input is at least header-sized, its source name is the
`parseSourceName` of the 64 name bytes, and its channel data is the suffix
at offset 126 clamped to 512 bytes. -/
lemma Parse_ok_spec (data : List Nat) (p : Packet) (h : Parse data = .ok p) :
    126 ≤ data.length ∧
    p.SourceName = parseSourceName ((data.drop 44).take 64) ∧
    p.ChannelData = (data.drop 126).take (min (data.length - 126) 512) := by
  unfold Parse at h
  split_ifs at h with h1 h2 h3 h4 h5 h6 h7
  · rw [Except.ok.injEq] at h
    subst h
    refine ⟨Nat.le_of_not_lt h1, rfl, ?_⟩
    show (data.drop E131HeaderSize).take
        (if data.length - E131HeaderSize > E131MaxChannels then E131MaxChannels
         else data.length - E131HeaderSize) = _
    unfold E131HeaderSize E131MaxChannels
    congr 1
    split_ifs with hc <;> omega
  · rw [Except.ok.injEq] at h
    subst h
    refine ⟨Nat.le_of_not_lt h1, rfl, ?_⟩
    show ([] : List Nat) = _
    unfold E131HeaderSize at h7
    have hz : data.length - 126 = 0 := by omega
    rw [hz]
    simp

/-- C5: for every accepted input, the source name is the 64 bytes at offsets
44–107 read up to but excluding the first NUL; all 64 bytes when no NUL
occurs; empty when the byte at offset 44 is NUL. -/
theorem Parse_sourceName (data : List Nat) (p : Packet) (h : Parse data = .ok p) :
    ((data.drop 44).take 64).length = 64 ∧
    p.SourceName = ((data.drop 44).take 64).takeWhile (fun b => !(b == 0)) ∧
    ((∀ b ∈ (data.drop 44).take 64, b ≠ 0) → p.SourceName = (data.drop 44).take 64) ∧
    (((data.drop 44).take 64).getD 0 0 = 0 → p.SourceName = []) := by
  obtain ⟨hlen, hname, -⟩ := Parse_ok_spec data p h
  have hlen64 : ((data.drop 44).take 64).length = 64 := by
    rw [List.length_take, List.length_drop]
    omega
  have htw : p.SourceName = ((data.drop 44).take 64).takeWhile (fun b => !(b == 0)) := by
    rw [hname, parseSourceName_eq_takeWhile]
  refine ⟨hlen64, htw, ?_, ?_⟩
  · intro hall
    rw [htw, List.takeWhile_eq_self_iff]
    intro b hb
    simpa using hall b hb
  · intro h0
    rcases hnil : (data.drop 44).take 64 with _ | ⟨b, rest⟩
    · rw [hnil] at hlen64
      simp at hlen64
    · have hb : b = 0 := by
        rw [hnil] at h0
        simpa using h0
      rw [htw, hnil, hb]
      simp [List.takeWhile]

/-- C5 witness: a name field `[65, 66, 0, 0, …]` parses to source name
`[65, 66]` (read up to the first NUL). -/
theorem Parse_sourceName_witness :
    Parse (sampleHeader ([65, 66] ++ List.replicate 62 0) 0) =
      .ok { CID := List.replicate 16 7, SourceName := [65, 66], Priority := 100,
            Sequence := 0, Universe := 1, StartCode := 0, ChannelData := [] } ∧
    [65, 66] =
      (((sampleHeader ([65, 66] ++ List.replicate 62 0) 0).drop 44).take 64).takeWhile
        (fun b => !(b == 0)) := by
  have h : Parse (sampleHeader ([65, 66] ++ List.replicate 62 0) 0) =
      .ok { CID := List.replicate 16 7, SourceName := [65, 66], Priority := 100,
            Sequence := 0, Universe := 1, StartCode := 0, ChannelData := [] } := by
    rfl
  refine ⟨h, ?_⟩
  have h2 := (Parse_sourceName _ _ h).2.1
  simpa using h2.symm

/-- C6: for every accepted input, the channel data is the suffix at offset
126 clamped to 512 bytes, its length is `min L 512` for `L` the byte count
past the header, and a header-only input yields empty channel data. -/
theorem Parse_channelData (data : List Nat) (p : Packet) (h : Parse data = .ok p) :
    p.ChannelData = (data.drop 126).take (min (data.length - 126) 512) ∧
    p.ChannelData.length = min (data.length - 126) 512 ∧
    (data.length = 126 → p.ChannelData = []) := by
  obtain ⟨hlen, -, hcd⟩ := Parse_ok_spec data p h
  refine ⟨hcd, ?_, ?_⟩
  · rw [hcd, List.length_take, List.length_drop]
    omega
  · intro h126
    rw [hcd, h126]
    simp

/-- C6 witness: a 126-byte header followed by 3 data bytes decodes to
channel data `[9, 8, 7]` of length `min 3 512 = 3`; the bare header decodes
to empty channel data. -/
theorem Parse_channelData_witness :
    Parse (sampleHeader (List.replicate 64 65) 0 ++ [9, 8, 7]) =
      .ok { CID := List.replicate 16 7, SourceName := List.replicate 64 65,
            Priority := 100, Sequence := 0, Universe := 1, StartCode := 0,
            ChannelData := [9, 8, 7] } ∧
    [9, 8, 7].length = min 3 512 ∧
    Parse (sampleHeader (List.replicate 64 65) 0) =
      .ok { CID := List.replicate 16 7, SourceName := List.replicate 64 65,
            Priority := 100, Sequence := 0, Universe := 1, StartCode := 0,
            ChannelData := [] } ∧
    ([] : List Nat) =
      ((sampleHeader (List.replicate 64 65) 0).drop 126).take
        (min ((sampleHeader (List.replicate 64 65) 0).length - 126) 512) := by
  have h : Parse (sampleHeader (List.replicate 64 65) 0 ++ [9, 8, 7]) =
      .ok { CID := List.replicate 16 7, SourceName := List.replicate 64 65,
            Priority := 100, Sequence := 0, Universe := 1, StartCode := 0,
            ChannelData := [9, 8, 7] } := by
    rfl
  have h' : Parse (sampleHeader (List.replicate 64 65) 0) =
      .ok { CID := List.replicate 16 7, SourceName := List.replicate 64 65,
            Priority := 100, Sequence := 0, Universe := 1, StartCode := 0,
            ChannelData := [] } := by
    rfl
  refine ⟨h, by decide, h', ?_⟩
  have h2 := (Parse_channelData _ _ h').1
  simpa using h2.symm

/-! ## Universe state (`internal/universe`) -/

/-- `Channel` from `internal/universe/universe.go`; `LastUpdate` is `none`
for Go's zero time. -/
structure Channel where
  Value : Nat
  Active : Bool
  LastUpdate : Option Int
  deriving DecidableEq, Repr

/-- `Universe` from `internal/universe/universe.go`.  The `[512]Channel`
array is embedded as a total function on indices; `Update` only writes
indices below 512, so indices past 511 never change. -/
structure Universe where
  ID : Nat
  Channels : Nat → Channel
  SourceName : String
  SourceCID : List Nat
  Priority : Nat
  LastSequence : Nat
  LastPacket : Option Int
  PacketCount : Nat

/-- `NewUniverse`: the Go zero value apart from the ID. -/
def NewUniverse (id : Nat) : Universe :=
  { ID := id
    Channels := fun _ => { Value := 0, Active := false, LastUpdate := none }
    SourceName := ""
    SourceCID := List.replicate 16 0
    Priority := 0
    LastSequence := 0
    LastPacket := none
    PacketCount := 0 }

/-- `Universe.Update`: overwrites the metadata, stamps the packet time,
increments the lifetime count, and runs the loop
`for i := 0; i < len(channelData) && i < 512; i++` writing value/active/time
per covered channel.  The function gives the loop's net effect per index. -/
def Universe.Update (u : Universe) (channelData : List Nat) (sourceName : String)
    (sourceCID : List Nat) (priority seqNum : Nat) (now : Int) : Universe :=
  { u with
    SourceName := sourceName
    SourceCID := sourceCID
    Priority := priority
    LastSequence := seqNum
    LastPacket := some now
    PacketCount := (u.PacketCount + 1) % 2 ^ 64
    Channels := fun i =>
      if i < channelData.length ∧ i < 512 then
        { Value := channelData.getD i 0, Active := true, LastUpdate := some now }
      else u.Channels i }

/-- `Universe.IsStale`: true when `LastPacket` is the zero time, else when
`time.Since(LastPacket) > timeout`. -/
def Universe.IsStale (u : Universe) (now timeout : Int) : Bool :=
  match u.LastPacket with
  | none => true
  | some t => decide (now - t > timeout)

/-- `Manager` from the universe manager file. -/
structure Manager where
  universes : List (Nat × Universe)

/-- The delete-and-count loop of `Manager.PruneStale`. -/
def pruneLoop (now timeout : Int) : List (Nat × Universe) → List (Nat × Universe) × Nat
  | [] => ([], 0)
  | e :: rest =>
    let r := pruneLoop now timeout rest
    if e.2.IsStale now timeout then (r.1, r.2 + 1) else (e :: r.1, r.2)

/-- `Manager.PruneStale`: removes every stale universe and returns the count
removed. -/
def Manager.PruneStale (m : Manager) (now timeout : Int) : Manager × Nat :=
  let r := pruneLoop now timeout m.universes
  (⟨r.1⟩, r.2)

/-- C4: a universe that never received a packet is stale for every timeout
(in particular a fresh one), staleness is exactly "no packet ever, or last
packet older than the timeout", and `PruneStale` deletes exactly the stale
universes and returns how many it removed. -/
theorem IsStale_PruneStale_spec :
    (∀ id (now timeout : Int), (NewUniverse id).IsStale now timeout = true) ∧
    (∀ (u : Universe) (now timeout : Int), u.LastPacket = none →
      u.IsStale now timeout = true) ∧
    (∀ (u : Universe) (now timeout : Int),
      u.IsStale now timeout = true ↔
        (u.LastPacket = none ∨ ∃ t, u.LastPacket = some t ∧ now - t > timeout)) ∧
    (∀ (m : Manager) (now timeout : Int),
      (m.PruneStale now timeout).1.universes
          = m.universes.filter (fun e => !(e.2.IsStale now timeout)) ∧
      (m.PruneStale now timeout).2
          = (m.universes.filter (fun e => e.2.IsStale now timeout)).length) := by
  have hloop : ∀ (now timeout : Int) (l : List (Nat × Universe)),
      pruneLoop now timeout l
        = (l.filter (fun e => !(e.2.IsStale now timeout)),
           (l.filter (fun e => e.2.IsStale now timeout)).length) := by
    intro now timeout l
    induction l with
    | nil => rfl
    | cons e rest ih =>
      by_cases he : e.2.IsStale now timeout = true
      · simp [pruneLoop, ih, he, List.filter]
      · simp only [Bool.not_eq_true] at he
        simp [pruneLoop, ih, he, List.filter]
  refine ⟨fun id now timeout => rfl, ?_, ?_, ?_⟩
  · intro u now timeout h
    unfold Universe.IsStale
    rw [h]
  · intro u now timeout
    unfold Universe.IsStale
    cases hlp : u.LastPacket with
    | none => simp
    | some t => simp [hlp]
  · intro m now timeout
    unfold Manager.PruneStale
    rw [hloop]
    exact ⟨rfl, rfl⟩

/-- C4 witness: a universe with `LastPacket = none` is stale even for a huge
timeout, and pruning a two-universe manager (one stale, one fresh) removes
exactly the stale one. -/
theorem IsStale_PruneStale_witness :
    (NewUniverse 3).IsStale 5 1000000 = true ∧
    ((Manager.mk [(3, NewUniverse 3),
        (4, { NewUniverse 4 with LastPacket := some 5 })]).PruneStale 5 1000000).2 = 1 := by
  constructor
  · exact IsStale_PruneStale_spec.2.1 (NewUniverse 3) 5 1000000 rfl
  · rw [(IsStale_PruneStale_spec.2.2.2 (Manager.mk [(3, NewUniverse 3),
        (4, { NewUniverse 4 with LastPacket := some 5 })]) 5 1000000).2]
    decide

/-- C8: `Update` with channel data of length `n` writes value/active/time for
exactly the indices `i < n` with `i < 512`, leaves every other channel
untouched, and never deactivates an active channel. -/
theorem Update_channels_spec (u : Universe) (channelData : List Nat)
    (sourceName : String) (sourceCID : List Nat) (priority seqNum : Nat) (now : Int) :
    (∀ i, i < channelData.length → i < 512 →
      (u.Update channelData sourceName sourceCID priority seqNum now).Channels i
        = { Value := channelData.getD i 0, Active := true, LastUpdate := some now }) ∧
    (∀ i, ¬(i < channelData.length ∧ i < 512) →
      (u.Update channelData sourceName sourceCID priority seqNum now).Channels i
        = u.Channels i) ∧
    (∀ i, (u.Channels i).Active = true →
      ((u.Update channelData sourceName sourceCID priority seqNum now).Channels i).Active
        = true) := by
  refine ⟨?_, ?_, ?_⟩
  · intro i h1 h2
    unfold Universe.Update
    simp only
    rw [if_pos ⟨h1, h2⟩]
  · intro i h
    unfold Universe.Update
    simp only
    rw [if_neg h]
  · intro i hact
    unfold Universe.Update
    simp only
    split_ifs with hc
    · rfl
    · exact hact

/-- C8 witness: updating a fresh universe with `[7, 8]` activates channels 0
and 1, leaves channel 2 untouched, and a later update with empty data keeps
channel 0 active. -/
theorem Update_channels_witness :
    ((NewUniverse 1).Update [7, 8] "s" (List.replicate 16 1) 100 0 5).Channels 0
        = { Value := 7, Active := true, LastUpdate := some 5 } ∧
    ((NewUniverse 1).Update [7, 8] "s" (List.replicate 16 1) 100 0 5).Channels 2
        = (NewUniverse 1).Channels 2 ∧
    ((((NewUniverse 1).Update [7, 8] "s" (List.replicate 16 1) 100 0 5).Update []
        "s" (List.replicate 16 1) 100 1 6).Channels 0).Active = true := by
  refine ⟨?_, ?_, ?_⟩
  · exact (Update_channels_spec (NewUniverse 1) [7, 8] "s" (List.replicate 16 1)
      100 0 5).1 0 (by decide) (by decide)
  · exact (Update_channels_spec (NewUniverse 1) [7, 8] "s" (List.replicate 16 1)
      100 0 5).2.1 2 (by decide)
  · exact (Update_channels_spec ((NewUniverse 1).Update [7, 8] "s"
      (List.replicate 16 1) 100 0 5) [] "s" (List.replicate 16 1) 100 1 6).2.2 0 (by decide)

/-! ## Statistics tracker (`internal/stats/tracker.go`) -/

/-- Association-list lookup with Go map semantics (`m[k]`). -/
def lookupA {α β : Type} [DecidableEq α] : List (α × β) → α → Option β
  | [], _ => none
  | p :: rest, k => if p.1 = k then some p.2 else lookupA rest k

/-- Association-list insert-or-replace with Go map semantics (`m[k] = v`). -/
def updateA {α β : Type} [DecidableEq α] : List (α × β) → α → β → List (α × β)
  | [], k, v => [(k, v)]
  | p :: rest, k, v => if p.1 = k then (k, v) :: rest else p :: updateA rest k v

lemma lookupA_updateA_self {α β : Type} [DecidableEq α] (l : List (α × β)) (k : α) (v : β) :
    lookupA (updateA l k v) k = some v := by
  induction l with
  | nil => simp [updateA, lookupA]
  | cons p rest ih =>
    by_cases hp : p.1 = k
    · simp [updateA, hp, lookupA]
    · simp [updateA, hp, lookupA, ih]

lemma lookupA_map_values {α β γ : Type} [DecidableEq α] (l : List (α × β)) (f : β → γ)
    (k : α) :
    lookupA (l.map (fun p => (p.1, f p.2))) k = (lookupA l k).map f := by
  induction l with
  | nil => rfl
  | cons p rest ih =>
    by_cases hp : p.1 = k
    · simp [lookupA, hp]
    · simp [lookupA, hp, ih]

/-- `lossWindowDuration` (`time.Minute`), in nanoseconds. -/
def lossWindowDuration : Int := 60 * 1000000000

/-- `sourceRestartThreshold` from `internal/stats/tracker.go`. -/
def sourceRestartThreshold : Nat := 200

/-- `PacketEvent` from `internal/stats/tracker.go`. -/
structure PacketEvent where
  Timestamp : Int
  Received : Nat
  Lost : Nat
  deriving DecidableEq, Repr

/-- `Source` from `internal/stats/tracker.go`; `LastSeen` is `none` for Go's
zero time, the `uint64` counters are `Nat` reduced `% 2 ^ 64` on increment. -/
structure Source where
  CID : List Nat
  Name : String
  LastSequence : Nat
  LastSeen : Option Int
  PacketCount : Nat
  LostPackets : Nat
  deriving DecidableEq, Repr

/-- `UniverseStats` from `internal/stats/tracker.go`; the `Sources` map is an
association list keyed by CID. -/
structure UniverseStats where
  UniverseID : Nat
  Sources : List (List Nat × Source)
  PacketCount : Nat
  LostPackets : Nat
  LastPacket : Option Int
  packetsInWindow : List Int
  lossWindow : List PacketEvent
  deriving DecidableEq, Repr

/-- `Tracker` from `internal/stats/tracker.go`. -/
structure Tracker where
  universes : List (Nat × UniverseStats)
  rateWindow : Int
  deriving DecidableEq, Repr

/-- `NewTracker`: empty universe map, one-second rate window (nanoseconds). -/
def NewTracker : Tracker := { universes := [], rateWindow := 1000000000 }

/-- The fresh per-universe record `RecordPacket` allocates on first packet. -/
def newUniverseStats (universeID : Nat) : UniverseStats :=
  { UniverseID := universeID, Sources := [], PacketCount := 0, LostPackets := 0,
    LastPacket := none, packetsInWindow := [], lossWindow := [] }

/-- The fresh source record `RecordPacket` allocates on first sight
(`&Source{CID: sourceCID, Name: sourceName}`). -/
def newSource (sourceCID : List Nat) (sourceName : String) : Source :=
  { CID := sourceCID, Name := sourceName, LastSequence := 0, LastSeen := none,
    PacketCount := 0, LostPackets := 0 }

/-- The two-branch forward-gap computation inside `RecordPacket`
(`lost = sequence - expected` when `sequence > expected`, else
`256 - expected + sequence`). -/
def seqGap (expectedSeq seqNum : Nat) : Nat :=
  if seqNum > expectedSeq then seqNum - expectedSeq else 256 - expectedSeq + seqNum

/-- `Tracker.RecordPacket`, with the current time `now` passed explicitly.
Go mutates the map entries in place through pointers; the net effect is
written back into the maps at the end. -/
def Tracker.RecordPacket (t : Tracker) (universeID : Nat) (sourceCID : List Nat)
    (sourceName : String) (seqNum : Nat) (now : Int) : Tracker :=
  let stats0 :=
    match lookupA t.universes universeID with
    | some s => s
    | none => newUniverseStats universeID
  let stats1 := { stats0 with
    PacketCount := (stats0.PacketCount + 1) % 2 ^ 64
    LastPacket := some now
    packetsInWindow :=
      (stats0.packetsInWindow ++ [now]).filter
        (fun pt => decide (now - t.rateWindow < pt)) }
  let srcLookup := lookupA stats1.Sources sourceCID
  let source0 :=
    match srcLookup with
    | some s => s
    | none => newSource sourceCID sourceName
  let step :=
    if srcLookup.isSome ∧ 0 < source0.PacketCount then
      let expectedSeq := (source0.LastSequence + 1) % 256
      if seqNum ≠ expectedSeq then
        let lost := seqGap expectedSeq seqNum
        if lost < sourceRestartThreshold then
          ({ source0 with LostPackets := (source0.LostPackets + lost) % 2 ^ 64 },
           (stats1.LostPackets + lost) % 2 ^ 64, lost)
        else (source0, stats1.LostPackets, 0)
      else (source0, stats1.LostPackets, 0)
    else (source0, stats1.LostPackets, 0)
  let stats2 := { stats1 with
    LostPackets := step.2.1
    lossWindow :=
      (stats1.lossWindow ++ [PacketEvent.mk now 1 step.2.2]).filter
        (fun evt => decide (now - lossWindowDuration < evt.Timestamp)) }
  let source1 := { step.1 with
    LastSequence := seqNum
    LastSeen := some now
    PacketCount := (step.1.PacketCount + 1) % 2 ^ 64
    Name := sourceName }
  let stats3 := { stats2 with Sources := updateA stats2.Sources sourceCID source1 }
  { t with universes := updateA t.universes universeID stats3 }

/-- `Tracker.GetUniverseStats` is `return t.universes[universeID]`: the
internal map entry itself (a `*UniverseStats` pointer in Go), not a copy. -/
def Tracker.GetUniverseStats (t : Tracker) (universeID : Nat) : Option UniverseStats :=
  lookupA t.universes universeID

/-- `Tracker.GetSources`: per-element copies (`append(sources, *s)`) of the
universe's source records; `nil` for an unknown universe. -/
def Tracker.GetSources (t : Tracker) (universeID : Nat) : List Source :=
  match lookupA t.universes universeID with
  | none => []
  | some stats => stats.Sources.map (fun p => p.2)

/-- `Tracker.GetAllUniverseIDs`. -/
def Tracker.GetAllUniverseIDs (t : Tracker) : List Nat := t.universes.map (fun p => p.1)

/-- `Tracker.ResetUniverseStats`: zeroes the universe's lifetime counters and
windows and every tracked source's counters, in place. -/
def Tracker.ResetUniverseStats (t : Tracker) (universeID : Nat) : Tracker :=
  match lookupA t.universes universeID with
  | some stats =>
      let cleared := { stats with
        PacketCount := 0
        LostPackets := 0
        packetsInWindow := []
        lossWindow := []
        Sources := stats.Sources.map
          (fun p => (p.1, { p.2 with PacketCount := 0, LostPackets := 0 })) }
      { t with universes := updateA t.universes universeID cleared }
  | none => t

/-- `Tracker.ResetAllStats`: replaces the universe map by a fresh empty map. -/
def Tracker.ResetAllStats (t : Tracker) : Tracker := { t with universes := [] }

/-- Net effect of `RecordPacket` on an already-tracked (universe, source)
pair: the lookups after the call, the unconditional field updates, and the
loss accounting. -/
lemma RecordPacket_known_spec (t : Tracker) (universeID : Nat) (sourceCID : List Nat)
    (sourceName : String) (seqNum : Nat) (now : Int)
    (stats : UniverseStats) (src : Source)
    (hu : lookupA t.universes universeID = some stats)
    (hs : lookupA stats.Sources sourceCID = some src) :
    ∃ stats' src',
      lookupA (t.RecordPacket universeID sourceCID sourceName seqNum now).universes
          universeID = some stats' ∧
      lookupA stats'.Sources sourceCID = some src' ∧
      stats'.PacketCount = (stats.PacketCount + 1) % 2 ^ 64 ∧
      stats'.LastPacket = some now ∧
      src'.CID = src.CID ∧
      src'.Name = sourceName ∧
      src'.LastSequence = seqNum ∧
      src'.LastSeen = some now ∧
      src'.PacketCount = (src.PacketCount + 1) % 2 ^ 64 ∧
      (if 0 < src.PacketCount ∧ seqNum ≠ (src.LastSequence + 1) % 256 ∧
          seqGap ((src.LastSequence + 1) % 256) seqNum < 200 then
        src'.LostPackets = (src.LostPackets + seqGap ((src.LastSequence + 1) % 256) seqNum) % 2 ^ 64 ∧
        stats'.LostPackets = (stats.LostPackets + seqGap ((src.LastSequence + 1) % 256) seqNum) % 2 ^ 64
      else
        src'.LostPackets = src.LostPackets ∧ stats'.LostPackets = stats.LostPackets) := by
  unfold Tracker.RecordPacket
  rw [hu]
  simp only [hs, Option.isSome_some, true_and, sourceRestartThreshold]
  by_cases hc : 0 < src.PacketCount ∧ seqNum ≠ (src.LastSequence + 1) % 256 ∧
      seqGap ((src.LastSequence + 1) % 256) seqNum < 200
  · obtain ⟨h1, h2, h3⟩ := hc
    simp only [if_pos h1, if_pos h2, if_pos h3, if_pos (⟨h1, h2, h3⟩ : _ ∧ _ ∧ _)]
    exact ⟨_, _, lookupA_updateA_self _ _ _, lookupA_updateA_self _ _ _,
      rfl, rfl, rfl, rfl, rfl, rfl, rfl, rfl, rfl⟩
  · simp only [if_neg hc]
    by_cases h1 : 0 < src.PacketCount
    · by_cases h2 : seqNum ≠ (src.LastSequence + 1) % 256
      · have h3 : ¬ seqGap ((src.LastSequence + 1) % 256) seqNum < 200 :=
          fun h3 => hc ⟨h1, h2, h3⟩
        simp only [if_pos h1, if_pos h2, if_neg h3]
        exact ⟨_, _, lookupA_updateA_self _ _ _, lookupA_updateA_self _ _ _,
          rfl, rfl, rfl, rfl, rfl, rfl, rfl, rfl, rfl⟩
      · simp only [if_pos h1, if_neg h2]
        exact ⟨_, _, lookupA_updateA_self _ _ _, lookupA_updateA_self _ _ _,
          rfl, rfl, rfl, rfl, rfl, rfl, rfl, rfl, rfl⟩
    · simp only [if_neg h1]
      exact ⟨_, _, lookupA_updateA_self _ _ _, lookupA_updateA_self _ _ _,
        rfl, rfl, rfl, rfl, rfl, rfl, rfl, rfl, rfl⟩

/-- Net effect of `RecordPacket` when the universe exists but the source CID
is new: a fresh source record is stored, and no loss is added. -/
lemma RecordPacket_newSource_spec (t : Tracker) (universeID : Nat) (sourceCID : List Nat)
    (sourceName : String) (seqNum : Nat) (now : Int) (stats : UniverseStats)
    (hu : lookupA t.universes universeID = some stats)
    (hs : lookupA stats.Sources sourceCID = none) :
    ∃ stats' src',
      lookupA (t.RecordPacket universeID sourceCID sourceName seqNum now).universes
          universeID = some stats' ∧
      lookupA stats'.Sources sourceCID = some src' ∧
      stats'.LostPackets = stats.LostPackets ∧
      src'.LostPackets = 0 ∧
      src'.PacketCount = 1 % 2 ^ 64 ∧
      src'.CID = sourceCID ∧
      src'.Name = sourceName ∧
      src'.LastSequence = seqNum := by
  unfold Tracker.RecordPacket
  rw [hu]
  simp only [hs, Option.isSome_none, Bool.false_eq_true, false_and, if_false]
  exact ⟨_, _, lookupA_updateA_self _ _ _, lookupA_updateA_self _ _ _,
    rfl, rfl, rfl, rfl, rfl, rfl⟩

/-- Net effect of `RecordPacket` when the universe itself is new: both the
universe's and the source's lost counters are zero afterwards. -/
lemma RecordPacket_newUniverse_spec (t : Tracker) (universeID : Nat)
    (sourceCID : List Nat) (sourceName : String) (seqNum : Nat) (now : Int)
    (hu : lookupA t.universes universeID = none) :
    ∃ stats' src',
      lookupA (t.RecordPacket universeID sourceCID sourceName seqNum now).universes
          universeID = some stats' ∧
      lookupA stats'.Sources sourceCID = some src' ∧
      stats'.LostPackets = 0 ∧
      src'.LostPackets = 0 ∧
      stats'.PacketCount = 1 % 2 ^ 64 ∧
      src'.PacketCount = 1 % 2 ^ 64 := by
  unfold Tracker.RecordPacket
  rw [hu]
  simp only [newUniverseStats, lookupA, Option.isSome_none, Bool.false_eq_true,
    false_and, if_false]
  exact ⟨_, _, lookupA_updateA_self _ _ _, lookupA_updateA_self _ _ _,
    rfl, rfl, rfl, rfl⟩

/-- C1: for a tracked source past its first packet, a modulo-256 forward gap
of at least 200 from the expected sequence records zero loss at both the
source and the universe level, while still updating `LastSequence`,
`LastSeen`, `PacketCount` and the stored name. -/
theorem RecordPacket_restart (t : Tracker) (universeID : Nat) (sourceCID : List Nat)
    (sourceName : String) (seqNum : Nat) (now : Int)
    (stats : UniverseStats) (src : Source)
    (hu : lookupA t.universes universeID = some stats)
    (hs : lookupA stats.Sources sourceCID = some src)
    (hcount : 0 < src.PacketCount)
    (hgap : 200 ≤ seqGap ((src.LastSequence + 1) % 256) seqNum) :
    ∃ stats' src',
      lookupA (t.RecordPacket universeID sourceCID sourceName seqNum now).universes
          universeID = some stats' ∧
      lookupA stats'.Sources sourceCID = some src' ∧
      src'.LostPackets = src.LostPackets ∧
      stats'.LostPackets = stats.LostPackets ∧
      src'.LastSequence = seqNum ∧
      src'.LastSeen = some now ∧
      src'.PacketCount = (src.PacketCount + 1) % 2 ^ 64 ∧
      src'.Name = sourceName := by
  obtain ⟨stats', src', hl1, hl2, hpc, hlp, hcid, hname, hlseq, hlseen, hspc, hloss⟩ :=
    RecordPacket_known_spec t universeID sourceCID sourceName seqNum now stats src hu hs
  rw [if_neg (fun h => absurd h.2.2 (Nat.not_lt.mpr hgap))] at hloss
  exact ⟨stats', src', hl1, hl2, hloss.1, hloss.2, hlseq, hlseen, hspc, hname⟩

/-- C1 witness: recording sequence 100 then 50 (forward gap 205 ≥ 200) for
the same (universe, source) yields 0 lost packets at both levels, packet
count 2, last sequence 50 and the latest name. -/
theorem RecordPacket_restart_witness :
    (lookupA ((NewTracker.RecordPacket 1 [1, 2] "n" 100 0).RecordPacket 1 [1, 2] "n2"
        50 5).universes 1).map UniverseStats.LostPackets = some 0 ∧
    ((lookupA ((NewTracker.RecordPacket 1 [1, 2] "n" 100 0).RecordPacket 1 [1, 2] "n2"
        50 5).universes 1).bind (fun s => lookupA s.Sources [1, 2])).map
      Source.LostPackets = some 0 ∧
    ((lookupA ((NewTracker.RecordPacket 1 [1, 2] "n" 100 0).RecordPacket 1 [1, 2] "n2"
        50 5).universes 1).bind (fun s => lookupA s.Sources [1, 2])).map
      Source.PacketCount = some 2 ∧
    ((lookupA ((NewTracker.RecordPacket 1 [1, 2] "n" 100 0).RecordPacket 1 [1, 2] "n2"
        50 5).universes 1).bind (fun s => lookupA s.Sources [1, 2])).map
      Source.Name = some "n2" := by
  obtain ⟨stats', src', hl1, hl2, hsl, hstl, hlseq, hlseen, hspc, hname⟩ :=
    RecordPacket_restart (NewTracker.RecordPacket 1 [1, 2] "n" 100 0) 1 [1, 2] "n2"
      50 5 _ _ rfl rfl (by decide) (by decide)
  rw [hl1]
  simp only [Option.some_bind, hl2, hsl, hstl, hspc, hname, Option.map]
  refine ⟨by decide, by decide, by decide, trivial⟩

/-- C2: for a tracked source past its first packet, with
`expected = (LastSequence + 1) % 256`: an in-order packet records no loss;
otherwise the forward gap is `sequence - expected` when
`sequence > expected`, else `256 - expected + sequence`, and a gap below 200
adds exactly that gap to both the source's and the universe's lifetime lost
counters. -/
theorem RecordPacket_gap_loss (t : Tracker) (universeID : Nat) (sourceCID : List Nat)
    (sourceName : String) (seqNum : Nat) (now : Int)
    (stats : UniverseStats) (src : Source)
    (hu : lookupA t.universes universeID = some stats)
    (hs : lookupA stats.Sources sourceCID = some src)
    (hcount : 0 < src.PacketCount) :
    ∃ stats' src',
      lookupA (t.RecordPacket universeID sourceCID sourceName seqNum now).universes
          universeID = some stats' ∧
      lookupA stats'.Sources sourceCID = some src' ∧
      seqGap ((src.LastSequence + 1) % 256) seqNum =
        (if seqNum > (src.LastSequence + 1) % 256 then
          seqNum - (src.LastSequence + 1) % 256
        else 256 - (src.LastSequence + 1) % 256 + seqNum) ∧
      (seqNum = (src.LastSequence + 1) % 256 →
        src'.LostPackets = src.LostPackets ∧ stats'.LostPackets = stats.LostPackets) ∧
      (seqNum ≠ (src.LastSequence + 1) % 256 →
        seqGap ((src.LastSequence + 1) % 256) seqNum < 200 →
        src'.LostPackets =
            (src.LostPackets + seqGap ((src.LastSequence + 1) % 256) seqNum) % 2 ^ 64 ∧
        stats'.LostPackets =
            (stats.LostPackets + seqGap ((src.LastSequence + 1) % 256) seqNum) % 2 ^ 64) := by
  obtain ⟨stats', src', hl1, hl2, hpc, hlp, hcid, hname, hlseq, hlseen, hspc, hloss⟩ :=
    RecordPacket_known_spec t universeID sourceCID sourceName seqNum now stats src hu hs
  refine ⟨stats', src', hl1, hl2, rfl, ?_, ?_⟩
  · intro heq
    rw [if_neg (fun h => absurd heq h.2.1)] at hloss
    exact hloss
  · intro hne hlt
    rw [if_pos ⟨hcount, hne, hlt⟩] at hloss
    exact hloss

/-- C2 witness: recording 0 then 5 yields exactly 4 lost packets at both the
source and the universe level, and recording 254 then 1 yields exactly 2. -/
theorem RecordPacket_gap_loss_witness :
    (lookupA ((NewTracker.RecordPacket 1 [1, 2] "n" 0 0).RecordPacket 1 [1, 2] "n"
        5 5).universes 1).map UniverseStats.LostPackets = some 4 ∧
    ((lookupA ((NewTracker.RecordPacket 1 [1, 2] "n" 0 0).RecordPacket 1 [1, 2] "n"
        5 5).universes 1).bind (fun s => lookupA s.Sources [1, 2])).map
      Source.LostPackets = some 4 ∧
    (lookupA ((NewTracker.RecordPacket 2 [1, 2] "n" 254 0).RecordPacket 2 [1, 2] "n"
        1 5).universes 2).map UniverseStats.LostPackets = some 2 ∧
    ((lookupA ((NewTracker.RecordPacket 2 [1, 2] "n" 254 0).RecordPacket 2 [1, 2] "n"
        1 5).universes 2).bind (fun s => lookupA s.Sources [1, 2])).map
      Source.LostPackets = some 2 := by
  obtain ⟨stats1, src1, hl1, hl2, -, -, hloss1⟩ :=
    RecordPacket_gap_loss (NewTracker.RecordPacket 1 [1, 2] "n" 0 0) 1 [1, 2] "n"
      5 5 _ _ rfl rfl (by decide)
  obtain ⟨hsl1, hstl1⟩ := hloss1 (by decide) (by decide)
  obtain ⟨stats2, src2, hl3, hl4, -, -, hloss2⟩ :=
    RecordPacket_gap_loss (NewTracker.RecordPacket 2 [1, 2] "n" 254 0) 2 [1, 2] "n"
      1 5 _ _ rfl rfl (by decide)
  obtain ⟨hsl2, hstl2⟩ := hloss2 (by decide) (by decide)
  rw [hl1, hl3]
  simp only [Option.some_bind, hl2, hl4, hsl1, hstl1, hsl2, hstl2, Option.map]
  refine ⟨by decide, by decide, by decide, by decide⟩

/-- C10: `RecordPacket` never adds loss on a call where the matching source
entry's packet count was not positive: the gap check is skipped for a new
universe, for a new source, and for a known source whose `PacketCount` is 0
(the first packet after `ResetUniverseStats`, whose stale `LastSequence` is
ignored) — so lost counters can only grow when the prior count was
positive. -/
theorem RecordPacket_no_loss_zero_count (t : Tracker) (universeID : Nat)
    (sourceCID : List Nat) (sourceName : String) (seqNum : Nat) (now : Int) :
    (∀ stats src, lookupA t.universes universeID = some stats →
      lookupA stats.Sources sourceCID = some src → src.PacketCount = 0 →
      ∃ stats' src',
        lookupA (t.RecordPacket universeID sourceCID sourceName seqNum now).universes
            universeID = some stats' ∧
        lookupA stats'.Sources sourceCID = some src' ∧
        src'.LostPackets = src.LostPackets ∧
        stats'.LostPackets = stats.LostPackets) ∧
    (∀ stats, lookupA t.universes universeID = some stats →
      lookupA stats.Sources sourceCID = none →
      ∃ stats' src',
        lookupA (t.RecordPacket universeID sourceCID sourceName seqNum now).universes
            universeID = some stats' ∧
        lookupA stats'.Sources sourceCID = some src' ∧
        src'.LostPackets = 0 ∧
        stats'.LostPackets = stats.LostPackets) ∧
    (lookupA t.universes universeID = none →
      ∃ stats' src',
        lookupA (t.RecordPacket universeID sourceCID sourceName seqNum now).universes
            universeID = some stats' ∧
        lookupA stats'.Sources sourceCID = some src' ∧
        src'.LostPackets = 0 ∧
        stats'.LostPackets = 0) := by
  refine ⟨?_, ?_, ?_⟩
  · intro stats src hu hs hzero
    obtain ⟨stats', src', hl1, hl2, hpc, hlp, hcid, hname, hlseq, hlseen, hspc, hloss⟩ :=
      RecordPacket_known_spec t universeID sourceCID sourceName seqNum now stats src hu hs
    rw [if_neg (fun h => absurd hzero (Nat.pos_iff_ne_zero.mp h.1))] at hloss
    exact ⟨stats', src', hl1, hl2, hloss.1, hloss.2⟩
  · intro stats hu hs
    obtain ⟨stats', src', hl1, hl2, hstl, hsl, -, -, -, -⟩ :=
      RecordPacket_newSource_spec t universeID sourceCID sourceName seqNum now stats hu hs
    exact ⟨stats', src', hl1, hl2, hsl, hstl⟩
  · intro hu
    obtain ⟨stats', src', hl1, hl2, hstl, hsl, -, -⟩ :=
      RecordPacket_newUniverse_spec t universeID sourceCID sourceName seqNum now hu
    exact ⟨stats', src', hl1, hl2, hsl, hstl⟩

/-- C10 witness: after `ResetUniverseStats`, a known source's next packet
with a small in-window gap (last sequence 100, then 110, gap 9 < 200) still
records zero loss at both levels, because the source's packet count was
reset to 0. -/
theorem RecordPacket_no_loss_zero_count_witness :
    (lookupA (((NewTracker.RecordPacket 1 [1, 2] "n" 100 0).ResetUniverseStats
        1).RecordPacket 1 [1, 2] "n" 110 5).universes 1).map
      UniverseStats.LostPackets = some 0 ∧
    ((lookupA (((NewTracker.RecordPacket 1 [1, 2] "n" 100 0).ResetUniverseStats
        1).RecordPacket 1 [1, 2] "n" 110 5).universes 1).bind
      (fun s => lookupA s.Sources [1, 2])).map Source.LostPackets = some 0 := by
  obtain ⟨stats', src', hl1, hl2, hsl, hstl⟩ :=
    (RecordPacket_no_loss_zero_count
      ((NewTracker.RecordPacket 1 [1, 2] "n" 100 0).ResetUniverseStats 1)
      1 [1, 2] "n" 110 5).1 _ _ rfl rfl (by decide)
  rw [hl1]
  simp only [Option.some_bind, hl2, hsl, hstl, Option.map]
  refine ⟨by decide, by decide⟩

lemma lookupA_zeroCounts (l : List (List Nat × Source)) (k : List Nat) :
    lookupA (l.map (fun p => (p.1, { p.2 with PacketCount := 0, LostPackets := 0 }))) k
      = (lookupA l k).map (fun s => { s with PacketCount := 0, LostPackets := 0 }) := by
  induction l with
  | nil => rfl
  | cons p rest ih =>
    by_cases hp : p.1 = k
    · simp [lookupA, hp]
    · simp [lookupA, hp, ih]

/-- C9: `ResetUniverseStats` zeroes the universe's lifetime packet and lost
counters, empties its rate and loss windows, and zeroes every tracked
source's packet and lost counters while each source stays retrievable under
its CID with its CID and name intact; `ResetAllStats` discards every
universe's tracked state, so no universe is listed afterwards. -/
theorem Reset_spec :
    (∀ (t : Tracker) (universeID : Nat) (stats : UniverseStats),
      lookupA t.universes universeID = some stats →
      ∃ stats',
        lookupA (t.ResetUniverseStats universeID).universes universeID = some stats' ∧
        stats'.PacketCount = 0 ∧
        stats'.LostPackets = 0 ∧
        stats'.packetsInWindow = [] ∧
        stats'.lossWindow = [] ∧
        (∀ cid src, lookupA stats.Sources cid = some src →
          ∃ src', lookupA stats'.Sources cid = some src' ∧
            src'.CID = src.CID ∧ src'.Name = src.Name ∧
            src'.PacketCount = 0 ∧ src'.LostPackets = 0)) ∧
    (∀ t : Tracker,
      (t.ResetAllStats).universes = [] ∧ (t.ResetAllStats).GetAllUniverseIDs = []) := by
  constructor
  · intro t universeID stats hu
    unfold Tracker.ResetUniverseStats
    rw [hu]
    refine ⟨_, lookupA_updateA_self _ _ _, rfl, rfl, rfl, rfl, ?_⟩
    intro cid src hsrc
    refine ⟨{ src with PacketCount := 0, LostPackets := 0 }, ?_, rfl, rfl, rfl, rfl⟩
    rw [lookupA_zeroCounts, hsrc]
    rfl
  · intro t
    exact ⟨rfl, rfl⟩

/-- C9 witness: a universe with recorded loss and a tracked source, after
`ResetUniverseStats`, shows zero lifetime counters and empty windows while
the source's CID and name are still retrievable; after `ResetAllStats` no
universe is listed. -/
theorem Reset_spec_witness :
    (lookupA (((NewTracker.RecordPacket 1 [1, 2] "n" 0 0).RecordPacket 1 [1, 2] "n"
        5 5).ResetUniverseStats 1).universes 1).map
      (fun s => (s.PacketCount, s.LostPackets, s.packetsInWindow, s.lossWindow))
      = some (0, 0, [], []) ∧
    ((lookupA (((NewTracker.RecordPacket 1 [1, 2] "n" 0 0).RecordPacket 1 [1, 2] "n"
        5 5).ResetUniverseStats 1).universes 1).bind
      (fun s => lookupA s.Sources [1, 2])).map
      (fun s => (s.CID, s.Name, s.PacketCount, s.LostPackets))
      = some ([1, 2], "n", 0, 0) ∧
    (((NewTracker.RecordPacket 1 [1, 2] "n" 0 0).RecordPacket 1 [1, 2] "n"
        5 5).ResetAllStats).GetAllUniverseIDs = [] := by
  obtain ⟨stats', hl1, hpc, hlp, hwin, hloss, hsrcs⟩ :=
    Reset_spec.1 ((NewTracker.RecordPacket 1 [1, 2] "n" 0 0).RecordPacket 1 [1, 2] "n"
      5 5) 1 _ rfl
  obtain ⟨src', hl2, hcid, hname, hspc, hslp⟩ := hsrcs [1, 2] _ rfl
  refine ⟨?_, ?_, (Reset_spec.2 _).2⟩
  · rw [hl1]
    simp only [Option.map, hpc, hlp, hwin, hloss]
  · rw [hl1]
    simp only [Option.some_bind, hl2, Option.map]
    rw [hcid, hname, hspc, hslp]
    rfl

/-- `RecordPacket` on an existing universe mutates that universe's record in
place: afterwards the map entry for that id holds the incremented packet
count and the new packet time. -/
lemma RecordPacket_universe_counts (t : Tracker) (universeID : Nat)
    (sourceCID : List Nat) (sourceName : String) (seqNum : Nat) (now : Int)
    (stats : UniverseStats)
    (hu : lookupA t.universes universeID = some stats) :
    ∃ stats',
      lookupA (t.RecordPacket universeID sourceCID sourceName seqNum now).universes
          universeID = some stats' ∧
      stats'.PacketCount = (stats.PacketCount + 1) % 2 ^ 64 ∧
      stats'.LastPacket = some now := by
  unfold Tracker.RecordPacket
  rw [hu]
  exact ⟨_, lookupA_updateA_self _ _ _, rfl, rfl⟩

/-- Reading, after later tracker operations, through a `*UniverseStats`
handle previously returned by `GetUniverseStats`.  In the Go code the
returned pointer aliases the map entry (`return t.universes[universeID]`),
and `RecordPacket` / `ResetUniverseStats` mutate the pointed-to struct in
place without ever replacing an existing universe's map entry, so a read
through the retained handle yields that entry's current value. -/
def derefStatsHandle (t : Tracker) (universeID : Nat) : Option UniverseStats :=
  lookupA t.universes universeID

/-- C3 counterexample: after one packet on universe 1, `GetUniverseStats`
hands the caller the internal map entry (`PacketCount = 1`); one further
`RecordPacket` mutates the pointed-to struct in place, so the retained
handle (see `derefStatsHandle`) now reads `PacketCount = 2`: the caller
observes internal mutable state change through a query result, so not
every read-only query returns a copy. -/
theorem GetUniverseStats_copy_cex :
    ((NewTracker.RecordPacket 1 [1, 2] "n" 0 0).GetUniverseStats 1).map
        UniverseStats.PacketCount = some 1 ∧
    (derefStatsHandle ((NewTracker.RecordPacket 1 [1, 2] "n" 0 0).RecordPacket 1 [1, 2]
        "n" 1 5) 1).map UniverseStats.PacketCount = some 2 ∧
    derefStatsHandle ((NewTracker.RecordPacket 1 [1, 2] "n" 0 0).RecordPacket 1 [1, 2]
        "n" 1 5) 1 ≠ (NewTracker.RecordPacket 1 [1, 2] "n" 0 0).GetUniverseStats 1 := by
  refine ⟨by decide, by decide, by decide⟩

/-- C3 amended: `GetUniverseStats` returns the tracker's internal map entry
itself — a live handle: for any tracked universe, after a further
`RecordPacket` on it the value read through the retained handle has changed
(packet count incremented, packet time restamped) with no intervening
query. -/
theorem GetUniverseStats_live_handle (t : Tracker) (universeID : Nat)
    (sourceCID : List Nat) (sourceName : String) (seqNum : Nat) (now : Int)
    (stats : UniverseStats)
    (hu : t.GetUniverseStats universeID = some stats) :
    t.GetUniverseStats universeID = lookupA t.universes universeID ∧
    ∃ stats',
      derefStatsHandle (t.RecordPacket universeID sourceCID sourceName seqNum now)
          universeID = some stats' ∧
      stats'.PacketCount = (stats.PacketCount + 1) % 2 ^ 64 ∧
      stats'.LastPacket = some now :=
  ⟨rfl, RecordPacket_universe_counts t universeID sourceCID sourceName seqNum now stats hu⟩

/-- C3 amended-claim witness: concrete instance of the live-handle
behaviour on universe 1. -/
theorem GetUniverseStats_live_handle_witness :
    (derefStatsHandle ((NewTracker.RecordPacket 1 [1, 2] "n" 0 0).RecordPacket 1 [1, 2]
        "n" 1 5) 1).map UniverseStats.PacketCount = some 2 := by
  obtain ⟨-, stats', hl, hpc, hlp⟩ :=
    GetUniverseStats_live_handle (NewTracker.RecordPacket 1 [1, 2] "n" 0 0) 1 [1, 2]
      "n" 1 5 _ rfl
  rw [hl]
  simp only [Option.map, hpc]
  decide
